import Mathlib

/- Verification of the Selkies joystick interposer
   (src/addons/js-interposer/joystick_interposer.c).

   The interposer is an LD_PRELOAD shim that redirects /dev/input/jsX and
   /dev/input/event* access to Unix domain sockets.  Below is a shallow
   embedding of its data model and of the operations the claims are about:
   the slot table, close(), read(), the config-read and connect-retry loops,
   common_open_logic, access(), and the ioctl emulation paths JSIOCGNAME,
   JSIOCGBTNMAP, EVIOCGBIT(EV_KEY), EVIOCGPROP/GKEY/GLED/GSW.  External
   effects (the real libc calls, recv results) are passed in explicitly as
   oracle arguments, so every definition is executable. -/

namespace Interposer

/-- Errno constant EPERM from errno.h. -/
def EPERM : Nat := 1

/-- Errno constant EIO from errno.h. -/
def EIO : Nat := 5

/-- Errno constant EBADF from errno.h. -/
def EBADF : Nat := 9

/-- Errno constant EAGAIN from errno.h. -/
def EAGAIN : Nat := 11

/-- Errno constant EFAULT from errno.h. -/
def EFAULT : Nat := 14

/-- Errno constant EINVAL from errno.h. -/
def EINVAL : Nat := 22

/-- Errno constant ENOTTY from errno.h. -/
def ENOTTY : Nat := 25

/-- Device kind stored in each slot: DEV_TYPE_JS (0) or DEV_TYPE_EV (1). -/
inductive DevType where
  | js
  | ev
deriving DecidableEq

/-- INTERPOSER_MAX_BTNS from the source: capacity of btn_map. -/
def INTERPOSER_MAX_BTNS : Nat := 512

/-- INTERPOSER_MAX_AXES from the source: capacity of axes_map. -/
def INTERPOSER_MAX_AXES : Nat := 64

/-- CONTROLLER_NAME_MAX_LEN from the source: capacity of the name field. -/
def CONTROLLER_NAME_MAX_LEN : Nat := 255

/-- js_config_t: the controller configuration received over the socket.
Byte strings are lists of byte values; the uint16 btn_map entries and the
uint8 axes_map entries are lists of Nat (the C arrays have fixed capacities
INTERPOSER_MAX_BTNS and INTERPOSER_MAX_AXES; only the first num_btns /
num_axes entries are ever read by the emulation paths modelled here). -/
structure js_config_t where
  name : List Nat
  vendor : Nat
  product : Nat
  version : Nat
  num_btns : Nat
  num_axes : Nat
  btn_map : List Nat
  axes_map : List Nat
deriving DecidableEq

/-- The all-zero js_config_t, as produced by memset(&js_config, 0, ...) in
close() and by the {0} initializer of the slot table. -/
def zero_config : js_config_t :=
  ⟨List.replicate CONTROLLER_NAME_MAX_LEN 0, 0, 0, 0, 0, 0,
   List.replicate INTERPOSER_MAX_BTNS 0, List.replicate INTERPOSER_MAX_AXES 0⟩

/-- js_interposer_t: per-slot state.  sockfd is -1 when no connection is
live.  The opaque js_corr blob is not touched by any operation modelled
here (close() resets only sockfd, open_flags and js_config), so it is
omitted from the embedding. -/
structure js_interposer_t where
  type : DevType
  open_dev_name : String
  socket_path : String
  sockfd : Int
  open_flags : Nat
  js_config : js_config_t
deriving DecidableEq

/-- The eight monitored device paths, in slot order (four jsX, four event*). -/
def device_paths : List String :=
  ["/dev/input/js0", "/dev/input/js1", "/dev/input/js2", "/dev/input/js3",
   "/dev/input/event1000", "/dev/input/event1001",
   "/dev/input/event1002", "/dev/input/event1003"]

/-- The statically initialized slot table `interposers`: eight slots, all
with sockfd -1, open_flags 0 and zeroed configuration. -/
def interposers : List js_interposer_t :=
  [⟨.js, "/dev/input/js0", "/tmp/selkies_js0.sock", -1, 0, zero_config⟩,
   ⟨.js, "/dev/input/js1", "/tmp/selkies_js1.sock", -1, 0, zero_config⟩,
   ⟨.js, "/dev/input/js2", "/tmp/selkies_js2.sock", -1, 0, zero_config⟩,
   ⟨.js, "/dev/input/js3", "/tmp/selkies_js3.sock", -1, 0, zero_config⟩,
   ⟨.ev, "/dev/input/event1000", "/tmp/selkies_event1000.sock", -1, 0, zero_config⟩,
   ⟨.ev, "/dev/input/event1001", "/tmp/selkies_event1001.sock", -1, 0, zero_config⟩,
   ⟨.ev, "/dev/input/event1002", "/tmp/selkies_event1002.sock", -1, 0, zero_config⟩,
   ⟨.ev, "/dev/input/event1003", "/tmp/selkies_event1003.sock", -1, 0, zero_config⟩]

/-- The slot reset performed by close() when real_close succeeds:
sockfd := -1, open_flags := 0, js_config zeroed. -/
def reset_slot (s : js_interposer_t) : js_interposer_t :=
  { s with sockfd := -1, open_flags := 0, js_config := zero_config }

/-- Intercepted close(): scans the slot table for the first slot whose live
sockfd equals fd (with fd >= 0).  On a match it calls real_close(fd) — whose
return value is the oracle argument real_ret — and resets the slot only when
that call returned 0; on a real_close error the slot is left as it was.  The
pair returned is (updated slot table, value returned to the caller); for a
non-matching fd the call is forwarded to real_close unchanged. -/
def close_intercept : List js_interposer_t → Int → Int → List js_interposer_t × Int
  | [], _, real_ret => ([], real_ret)
  | s :: rest, fd, real_ret =>
    if 0 ≤ fd ∧ s.sockfd = fd then
      if real_ret = 0 then (reset_slot s :: rest, real_ret)
      else (s :: rest, real_ret)
    else
      let r := close_intercept rest fd real_ret
      (s :: r.1, r.2)

/-- sizeof(struct js_event): 4-byte time, 2-byte value, 1-byte type,
1-byte number. -/
def js_event_size : Nat := 8

/-- sizeof(struct input_event) on an LP64 build: 16-byte timeval plus
type, code (2 bytes each) and 4-byte value. -/
def input_event_size : Nat := 24

/-- Per-record size selected by the intercepted read() from the slot type. -/
def event_size_of : DevType → Nat
  | .js => js_event_size
  | .ev => input_event_size

/-- Result of the single recv() performed by the intercepted read():
either n bytes were delivered (n = 0 is EOF) or recv failed with an errno. -/
inductive RecvResult where
  | data (n : Nat)
  | err (e : Nat)
deriving DecidableEq

/-- What the intercepted read() hands back to the caller: a byte count or
-1 with an errno. -/
inductive ReadResult where
  | bytes (n : Nat)
  | error (e : Nat)
deriving DecidableEq

/-- Intercepted read() on an interposed descriptor of kind t with caller
buffer size count: return 0 immediately when count = 0; reject with EINVAL
when count is smaller than one record; otherwise perform one recv() of
event_size bytes (outcome given by the oracle r) and hand its result —
error, EOF, or n bytes even when 0 < n < event_size — to the caller. -/
def read_intercept (t : DevType) (count : Nat) (r : RecvResult) : ReadResult :=
  if count = 0 then .bytes 0
  else if count < event_size_of t then .error EINVAL
  else
    match r with
    | .data n => .bytes n
    | .err e => .error e

/-- sizeof(js_config_t) on the wire: 255-byte name, one alignment byte,
five uint16 fields, 512 uint16 btn_map entries, 64 axes_map bytes and six
padding bytes: 255 + 1 + 10 + 1024 + 64 + 6 = 1360. -/
def js_config_size : Nat := 1360

/-- One iteration outcome of the real_read call inside read_socket_config:
would-block (EAGAIN/EWOULDBLOCK, answered by usleep(100ms) and retry), a
hard error, EOF, or n more bytes. -/
inductive ConfigStep where
  | again
  | fail (e : Nat)
  | eof
  | data (n : Nat)
deriving DecidableEq

/-- State of the read_socket_config loop after consuming a finite trace of
recv outcomes: finished successfully, finished with failure, or still
looping (trace exhausted) with bytes_so_far bytes accumulated. -/
inductive ConfigOutcome where
  | ok
  | fail
  | running (bytes_so_far : Nat)
deriving DecidableEq

/-- The while loop of read_socket_config: keep calling real_read until
js_config_size bytes have accumulated.  A would-block result sleeps and
retries with no change of state and no retry budget; a hard error or EOF
aborts; data advances the byte count.  The trace argument supplies the
outcome of each successive real_read call. -/
def read_config_loop (total : Nat) : List ConfigStep → ConfigOutcome
  | [] => if js_config_size ≤ total then .ok else .running total
  | s :: rest =>
    if js_config_size ≤ total then .ok
    else
      match s with
      | .again => read_config_loop total rest
      | .fail _ => .fail
      | .eof => .fail
      | .data n => read_config_loop (total + n) rest

/-- SOCKET_CONNECT_TIMEOUT_MS converted to microseconds, as in the source. -/
def SOCKET_CONNECT_TIMEOUT_US : Nat := 250000

/-- sleep_interval_us of the connect retry loop. -/
def CONNECT_SLEEP_INTERVAL_US : Nat := 10000

/-- Outcome of one connect() attempt inside connect_interposer_socket:
success, a retryable failure (ENOENT or ECONNREFUSED), or any other error. -/
inductive ConnectStep where
  | ok
  | retryable
  | hard
deriving DecidableEq

/-- State of the connect retry loop after consuming a finite trace of
connect() outcomes; exhausted means the trace ended while the loop was
still going to retry. -/
inductive ConnectOutcome where
  | connected
  | failed
  | exhausted
deriving DecidableEq

/-- The connect retry loop of connect_interposer_socket: on a retryable
errno it fails once total_slept_us has reached the timeout, otherwise it
sleeps CONNECT_SLEEP_INTERVAL_US and retries; any other errno fails at
once; a successful connect exits the loop. -/
def connect_retry_loop (slept : Nat) : List ConnectStep → ConnectOutcome
  | [] => .exhausted
  | .ok :: _ => .connected
  | .hard :: _ => .failed
  | .retryable :: rest =>
    if SOCKET_CONNECT_TIMEOUT_US ≤ slept then .failed
    else connect_retry_loop (slept + CONNECT_SLEEP_INTERVAL_US) rest

/-- common_open_logic: scan the slot table for the slot whose device path
equals pathname.  If its sockfd is already live, return it untouched
together with the existing descriptor (idempotent reuse; the stored
open_flags and configuration are not modified and no new connection is
made).  Otherwise record the caller's flags and run the connect/handshake,
whose outcome is the oracle argument conn: none means failure (open_flags
is cleared again, -1 returned with errno EIO), some (fd, cfg) means a new
socket fd and the configuration read during the handshake.  -2 signals a
path that is not interposed (the caller falls through to real open). -/
def common_open_logic : List js_interposer_t → String → Nat →
    Option (Nat × js_config_t) → List js_interposer_t × Int
  | [], _, _, _ => ([], -2)
  | s :: rest, pathname, flags, conn =>
    if s.open_dev_name = pathname then
      if s.sockfd ≠ -1 then
        (s :: rest, s.sockfd)
      else
        match conn with
        | none => ({ s with open_flags := 0 } :: rest, -1)
        | some (fd, cfg) =>
          ({ s with sockfd := Int.ofNat fd, open_flags := flags, js_config := cfg } :: rest,
           Int.ofNat fd)
    else
      let r := common_open_logic rest pathname flags conn
      (s :: r.1, r.2)

/-- Intercepted access(): a pathname equal to one of the eight monitored
device paths is forced to succeed — return 0 with errno 0 — no matter what
the real access() reported (the code calls the real function only to log
its result, then restores and clears errno); every other pathname gets the
real access() result (ret, errno) unchanged. -/
def access_intercept (pathname : String) (real_ret : Int) (real_errno : Nat) :
    Int × Nat :=
  if pathname ∈ device_paths then (0, 0) else (real_ret, real_errno)

/-- FAKE_UDEV_DEVICE_NAME as a byte string. -/
def FAKE_UDEV_DEVICE_NAME : List Nat :=
  (String.toList "Microsoft X-Box 360 pad").map Char.toNat

/-- strlen over a byte buffer: length of the prefix before the first NUL. -/
def cstrlen (buf : List Nat) : Nat := (buf.takeWhile (fun b => b != 0)).length

/-- JSIOCGNAME(len) handler, for len > 0: strncpy the hardcoded device
name into the first len-1 bytes of the caller's buffer (truncating, and
zero-padding when the name is shorter), force a NUL at index len-1, and
return strlen of the buffer.  The pair is (the len bytes written, return
value). -/
def jsiocgname (len : Nat) : List Nat × Nat :=
  let copied := FAKE_UDEV_DEVICE_NAME.take (len - 1)
  let buf := copied ++ List.replicate (len - 1 - copied.length) 0 ++ [0]
  (buf, cstrlen buf)

/-- JSIOCGBTNMAP handler: reject with EINVAL when the request's embedded
size is smaller than num_btns uint16 entries or num_btns exceeds
INTERPOSER_MAX_BTNS; otherwise memcpy the first num_btns btn_map entries
into the caller's buffer. -/
def jsiocgbtnmap (cfg : js_config_t) (req_size : Nat) : Except Nat (List Nat) :=
  if req_size < cfg.num_btns * 2 ∨ INTERPOSER_MAX_BTNS < cfg.num_btns then
    .error EINVAL
  else
    .ok (cfg.btn_map.take cfg.num_btns)

/-- KEY_MAX (0x2ff) from input-event-codes.h. -/
def KEY_MAX : Nat := 767

/-- Set bit (code mod 8) of byte (code div 8) in a byte buffer, as the
EVIOCGBIT handler does with `buf[code / 8] |= 1 << (code % 8)`. -/
def set_key_bit (buf : List Nat) (code : Nat) : List Nat :=
  buf.set (code / 8) (buf.getD (code / 8) 0 ||| (1 <<< (code % 8)))

/-- One iteration of the EVIOCGBIT(EV_KEY) loop body: set the code's bit
when the code passes the guard `code < KEY_MAX and code / 8 < len`
(the C test key_code >= 0 is vacuous for uint16 map entries). -/
def key_bit_step (len : Nat) (buf : List Nat) (code : Nat) : List Nat :=
  if code < KEY_MAX ∧ code / 8 < len then set_key_bit buf code else buf

/-- EVIOCGBIT(EV_KEY, len) handler: start from a zeroed len-byte buffer and
run the loop body over the num_btns configured btn_map codes in order. -/
def eviocgbit_key (cfg : js_config_t) (len : Nat) : List Nat :=
  (cfg.btn_map.take cfg.num_btns).foldl (key_bit_step len) (List.replicate len 0)

/-- INPUT_PROP_POINTING_STICK (0x05) from input-event-codes.h. -/
def INPUT_PROP_POINTING_STICK : Nat := 5

/-- EVIOCGPROP(len) handler, for len > 0: zero the buffer, then set the
INPUT_PROP_POINTING_STICK bit when its byte index fits, and return 0.
The pair is (buffer written, return value). -/
def eviocgprop (len : Nat) : List Nat × Nat :=
  let base := List.replicate len 0
  let buf :=
    if INPUT_PROP_POINTING_STICK / 8 < len then
      base.set (INPUT_PROP_POINTING_STICK / 8)
        (base.getD (INPUT_PROP_POINTING_STICK / 8) 0 |||
          (1 <<< (INPUT_PROP_POINTING_STICK % 8)))
    else base
  (buf, 0)

/-- EVIOCGKEY(len) handler, for len > 0: zero the buffer and return len. -/
def eviocgkey (len : Nat) : List Nat × Nat := (List.replicate len 0, len)

/-- EVIOCGLED(len) handler, for len > 0: zero the buffer and return len. -/
def eviocgled (len : Nat) : List Nat × Nat := (List.replicate len 0, len)

/-- EVIOCGSW(len) handler, for len > 0: zero the buffer and return len. -/
def eviocgsw (len : Nat) : List Nat × Nat := (List.replicate len 0, len)

/-- A slot holding a live connection (sockfd 5) with caller flags and a
non-trivial configuration, used to exercise close() and read(). -/
def live_slot : js_interposer_t :=
  ⟨.js, "/dev/input/js0", "/tmp/selkies_js0.sock", 5, 2048,
   ⟨[88], 1118, 654, 276, 2, 1, [304, 305], [0]⟩⟩

/-- C1 counterexample: with a live slot whose descriptor is 5, close(5)
whose underlying real_close reports an error (-1) leaves the slot table
unchanged — the slot keeps its live sockfd, flags and configuration — so
close() does not always reset the slot to available. -/
theorem close_error_keeps_slot_cex :
    close_intercept [live_slot] 5 (-1) = ([live_slot], -1) ∧
    live_slot.sockfd ≠ -1 ∧ live_slot.js_config ≠ zero_config := by
  refine ⟨rfl, by decide, by decide⟩

/-- C1 (amended): close() on a slot's live descriptor resets that slot to
available (sockfd -1, open_flags 0, configuration zeroed) exactly when the
underlying real_close returns 0; when real_close reports a non-zero result
the whole slot table is left unchanged and the error is returned. -/
theorem close_resets_slot_iff_real_close_ok :
    ∀ (slots rest : List js_interposer_t) (s : js_interposer_t) (fd ret : Int),
      (ret ≠ 0 → close_intercept slots fd ret = (slots, ret)) ∧
      (0 ≤ fd → s.sockfd = fd →
        close_intercept (s :: rest) fd 0 = (reset_slot s :: rest, 0)) := by
  intro slots rest s fd ret
  constructor
  · intro hret
    induction slots with
    | nil => simp [close_intercept]
    | cons a as ih =>
      by_cases h : 0 ≤ fd ∧ a.sockfd = fd
      · simp [close_intercept, h, hret]
      · simp [close_intercept, h, ih]
  · intro hfd hs
    simp [close_intercept, hfd, hs]

/-- C1 witness: the amended theorem applied to the live slot, once with a
failing real_close and once with a succeeding one. -/
theorem close_resets_slot_iff_real_close_ok_witness :
    close_intercept [live_slot] 5 (-1) = ([live_slot], -1) ∧
    close_intercept [live_slot] 5 0 = ([reset_slot live_slot], 0) :=
  ⟨(close_resets_slot_iff_real_close_ok [live_slot] [] live_slot 5 (-1)).1 (by decide),
   (close_resets_slot_iff_real_close_ok [live_slot] [] live_slot 5 0).2 (by decide) rfl⟩

/-- C2 counterexample: read() on an interposed legacy descriptor with
count = 0 returns 0 bytes immediately — not -1 with EINVAL — although
0 is strictly smaller than the 8-byte js_event record size. -/
theorem read_count_zero_cex :
    read_intercept DevType.js 0 (RecvResult.data 8) = ReadResult.bytes 0 ∧
    read_intercept DevType.js 0 (RecvResult.data 8) ≠ ReadResult.error EINVAL ∧
    0 < js_event_size := by decide

/-- C2 (amended): on an interposed descriptor, read() with a caller buffer
of size count rejects with EINVAL whenever 0 < count < record size, but a
count of exactly 0 short-circuits to a successful 0-byte read before the
size check. -/
theorem read_small_count_einval :
    ∀ (t : DevType) (count : Nat) (r : RecvResult),
      (0 < count → count < event_size_of t →
        read_intercept t count r = ReadResult.error EINVAL) ∧
      read_intercept t 0 r = ReadResult.bytes 0 := by
  intro t count r
  constructor
  · intro h0 hlt
    unfold read_intercept
    rw [if_neg (Nat.pos_iff_ne_zero.mp h0), if_pos hlt]
  · rfl

/-- C2 witness: the amended theorem at count 4 on a legacy slot. -/
theorem read_small_count_einval_witness :
    read_intercept DevType.js 4 (RecvResult.data 8) = ReadResult.error EINVAL :=
  (read_small_count_einval DevType.js 4 (RecvResult.data 8)).1 (by decide) (by decide)

/-- C3 counterexample: with an 8-byte caller buffer on a legacy slot, a
recv() that delivers only 3 bytes of the 8-byte record makes read() hand
the caller a successful short read of 3 bytes — a partial record returned
as a positive count rather than surfaced as an error. -/
theorem read_partial_record_cex :
    read_intercept DevType.js 8 (RecvResult.data 3) = ReadResult.bytes 3 ∧
    0 < 3 ∧ 3 < js_event_size := by decide

/-- C3 (amended): once the caller's buffer holds at least one record,
read() passes the single recv() outcome through unchanged: n bytes are
returned as an n-byte read for every n — including partial records with
0 < n < record size, which are only logged — 0 is returned as clean EOF,
and a recv error is returned as -1 with recv's errno. -/
theorem read_passthrough :
    ∀ (t : DevType) (count n e : Nat),
      event_size_of t ≤ count →
      read_intercept t count (RecvResult.data n) = ReadResult.bytes n ∧
      read_intercept t count (RecvResult.err e) = ReadResult.error e := by
  intro t count n e h
  have hc0 : count ≠ 0 := by
    intro h0
    cases t <;>
      simp [h0, event_size_of, js_event_size, input_event_size] at h
  have hlt : ¬ count < event_size_of t := Nat.not_lt.mpr h
  constructor <;> (unfold read_intercept; rw [if_neg hc0, if_neg hlt])

/-- C3 witness: the amended theorem on a legacy slot with an exact-size
buffer, a partial 3-byte recv and an errno-5 recv failure. -/
theorem read_passthrough_witness :
    read_intercept DevType.js 8 (RecvResult.data 3) = ReadResult.bytes 3 ∧
    read_intercept DevType.js 8 (RecvResult.err 5) = ReadResult.error 5 :=
  read_passthrough DevType.js 8 3 5 (by decide)

/-- C10: access() returns 0 with errno cleared to 0 for every pathname
equal to one of the eight monitored device paths, whatever result the real
access() would have produced, and forwards the real result unchanged for
every other pathname. -/
theorem access_forced_success :
    ∀ (pathname : String) (real_ret : Int) (real_errno : Nat),
      (pathname ∈ device_paths →
        access_intercept pathname real_ret real_errno = (0, 0)) ∧
      (pathname ∉ device_paths →
        access_intercept pathname real_ret real_errno = (real_ret, real_errno)) := by
  intro p r e
  refine ⟨fun h => ?_, fun h => ?_⟩
  · simp [access_intercept, h]
  · simp [access_intercept, h]

/-- C10 witness: a monitored path is forced to succeed even when the real
access() failed with ENOENT, and an unmonitored path keeps that failure. -/
theorem access_forced_success_witness :
    access_intercept "/dev/input/js0" (-1) 2 = (0, 0) ∧
    access_intercept "/dev/input/js9" (-1) 2 = (-1, 2) :=
  ⟨(access_forced_success "/dev/input/js0" (-1) 2).1 (by decide),
   (access_forced_success "/dev/input/js9" (-1) 2).2 (by decide)⟩

/-- C4 counterexample: after 25 consecutive would-block results — 2.5
seconds of wall time at the loop's fixed 100 ms retry sleep, past the
spec's example 2 s bound — the config-read loop has made no progress and
is still retrying: it carries no timeout at all. -/
theorem config_retry_unbounded_cex :
    read_config_loop 0 (List.replicate 25 ConfigStep.again) =
      ConfigOutcome.running 0 := by decide

/-- C4 (amended): the two loops are not uniformly bounded.  The config-read
retry loop consumes any number of would-block results without accumulating
progress or a retry budget, so it is still running after n retries for
every n; only the connect retry loop is bounded — once the retryable-error
trace is long enough for total sleep to reach SOCKET_CONNECT_TIMEOUT_US it
fails instead of retrying further.  read() itself performs a single recv
with no timeout path of its own. -/
theorem loop_bound_status :
    (∀ n : Nat, read_config_loop 0 (List.replicate n ConfigStep.again) =
      ConfigOutcome.running 0) ∧
    (∀ n : Nat, ∀ slept : Nat, 1 ≤ n →
      SOCKET_CONNECT_TIMEOUT_US ≤ slept + (n - 1) * CONNECT_SLEEP_INTERVAL_US →
      connect_retry_loop slept (List.replicate n ConnectStep.retryable) =
        ConnectOutcome.failed) := by
  constructor
  · intro n
    induction n with
    | zero => rfl
    | succ m ih =>
      rw [List.replicate_succ]
      exact ih
  · intro n
    induction n with
    | zero =>
      intro slept h1 _
      exact absurd h1 (by decide)
    | succ m ih =>
      intro slept _ hbound
      rw [List.replicate_succ]
      unfold connect_retry_loop
      by_cases hs : SOCKET_CONNECT_TIMEOUT_US ≤ slept
      · rw [if_pos hs]
      · rw [if_neg hs]
        have hm : 1 ≤ m := by
          simp only [SOCKET_CONNECT_TIMEOUT_US, CONNECT_SLEEP_INTERVAL_US] at hs hbound
          omega
        apply ih
        · exact hm
        · simp only [SOCKET_CONNECT_TIMEOUT_US, CONNECT_SLEEP_INTERVAL_US] at hbound ⊢
          omega

/-- C4 witness: the amended theorem at 7 would-block retries for the config
loop, and at the minimal 26-attempt all-retryable trace for the connect
loop (25 sleeps of 10 ms reach the 250 ms bound). -/
theorem loop_bound_status_witness :
    read_config_loop 0 (List.replicate 7 ConfigStep.again) =
      ConfigOutcome.running 0 ∧
    connect_retry_loop 0 (List.replicate 26 ConnectStep.retryable) =
      ConnectOutcome.failed :=
  ⟨loop_bound_status.1 7, loop_bound_status.2 26 0 (by decide) (by decide)⟩

/-- cstrlen of a buffer made of NUL-free payload, NUL padding and a final
NUL terminator is the payload length. -/
theorem cstrlen_terminated (l : List Nat) (k : Nat)
    (h : ∀ b ∈ l, (b != 0) = true) :
    cstrlen (l ++ List.replicate k 0 ++ [0]) = l.length := by
  have hl : List.takeWhile (fun b => b != 0) l = l :=
    List.takeWhile_eq_self_iff.mpr h
  have htail :
      List.takeWhile (fun b => b != 0) (List.replicate k (0 : Nat) ++ [0]) = [] := by
    cases k with
    | zero => simp [List.takeWhile_cons]
    | succ m => simp [List.replicate_succ, List.takeWhile_cons]
  unfold cstrlen
  rw [List.append_assoc, List.takeWhile_append, hl, if_pos rfl, htail,
    List.append_nil]

/-- C6: for every request length len > 0, JSIOCGNAME writes exactly len
bytes, the written string is the canonical hardcoded device name truncated
to min (len-1, 23) characters, a NUL terminator sits at index len-1 (so
at most len-1 characters precede a guaranteed terminator), and the return
value is the copied string length min (len-1, 23) — in particular, len = 5
yields the 4 characters of "Micr" plus the terminator and return value 4. -/
theorem jsiocgname_truncates :
    ∀ len : Nat, 0 < len →
      (jsiocgname len).1.length = len ∧
      (jsiocgname len).2 = min (len - 1) FAKE_UDEV_DEVICE_NAME.length ∧
      (jsiocgname len).2 ≤ len - 1 ∧
      (jsiocgname len).1.take ((jsiocgname len).2) =
        FAKE_UDEV_DEVICE_NAME.take ((jsiocgname len).2) ∧
      (jsiocgname len).1.getD (len - 1) 7 = 0 ∧
      (jsiocgname 5).1 = [77, 105, 99, 114, 0] ∧ (jsiocgname 5).2 = 4 := by
  intro len hlen
  have hname : ∀ b ∈ FAKE_UDEV_DEVICE_NAME, (b != 0) = true := by decide
  have hclen : (FAKE_UDEV_DEVICE_NAME.take (len - 1)).length =
      min (len - 1) FAKE_UDEV_DEVICE_NAME.length := List.length_take _ _
  have hcle : (FAKE_UDEV_DEVICE_NAME.take (len - 1)).length ≤ len - 1 := by
    rw [hclen]; exact Nat.min_le_left _ _
  have hret : (jsiocgname len).2 = (FAKE_UDEV_DEVICE_NAME.take (len - 1)).length := by
    show cstrlen _ = _
    exact cstrlen_terminated _ _
      (fun b hb => hname b (List.mem_of_mem_take hb))
  have hprefix_len :
      (FAKE_UDEV_DEVICE_NAME.take (len - 1) ++
        List.replicate (len - 1 - (FAKE_UDEV_DEVICE_NAME.take (len - 1)).length) 0).length
        = len - 1 := by
    rw [List.length_append, List.length_replicate]
    omega
  refine ⟨?_, ?_, ?_, ?_, ?_, by decide, by decide⟩
  · show (_ ++ _ ++ [(0 : Nat)]).length = len
    rw [List.length_append, hprefix_len, List.length_cons, List.length_nil]
    omega
  · rw [hret, hclen]
  · rw [hret]; exact hcle
  · rw [hret]
    show (FAKE_UDEV_DEVICE_NAME.take (len - 1) ++ _ ++ _).take _ = _
    rw [List.append_assoc, List.take_left, List.take_eq_take]
    omega
  · show (_ ++ _ ++ [(0 : Nat)]).getD (len - 1) 7 = 0
    rw [List.getD_append_right _ _ _ _ (le_of_eq hprefix_len), hprefix_len,
      Nat.sub_self, List.getD_cons_zero]

/-- C6 witness: the theorem at request length 5. -/
theorem jsiocgname_truncates_witness :
    (jsiocgname 5).1.length = 5 ∧ (jsiocgname 5).2 = 4 :=
  ⟨(jsiocgname_truncates 5 (by decide)).1,
   ((jsiocgname_truncates 5 (by decide)).2.1).trans (by decide)⟩

/-- C7: JSIOCGBTNMAP succeeds and copies the configured num_btns btn_map
entries whenever the request's embedded size holds num_btns two-byte
entries and num_btns is within the fixed 512-entry capacity; it returns
EINVAL whenever the declared size is too small or the count exceeds
capacity. -/
theorem jsiocgbtnmap_copy_or_reject :
    ∀ (cfg : js_config_t) (req_size : Nat),
      (cfg.num_btns * 2 ≤ req_size → cfg.num_btns ≤ INTERPOSER_MAX_BTNS →
        jsiocgbtnmap cfg req_size = Except.ok (cfg.btn_map.take cfg.num_btns)) ∧
      (req_size < cfg.num_btns * 2 ∨ INTERPOSER_MAX_BTNS < cfg.num_btns →
        jsiocgbtnmap cfg req_size = Except.error EINVAL) := by
  intro cfg req_size
  constructor
  · intro h1 h2
    have hcond :
        ¬ (req_size < cfg.num_btns * 2 ∨ INTERPOSER_MAX_BTNS < cfg.num_btns) := by
      push_neg
      exact ⟨h1, h2⟩
    unfold jsiocgbtnmap
    rw [if_neg hcond]
  · intro h
    unfold jsiocgbtnmap
    rw [if_pos h]

/-- An 11-button controller configuration matching the spec's button-map
example. -/
def xpad_config : js_config_t :=
  ⟨[88], 1118, 654, 276, 11, 8,
   [304, 305, 307, 308, 310, 311, 314, 315, 316, 317, 318],
   [0, 1, 2, 3, 4, 5, 16, 17]⟩

/-- C7 witness: the theorem on the 11-button configuration, once with a
buffer of exactly 22 bytes (success, map reproduced) and once with 21
bytes (EINVAL). -/
theorem jsiocgbtnmap_copy_or_reject_witness :
    jsiocgbtnmap xpad_config 22 =
      Except.ok [304, 305, 307, 308, 310, 311, 314, 315, 316, 317, 318] ∧
    jsiocgbtnmap xpad_config 21 = Except.error EINVAL :=
  ⟨(jsiocgbtnmap_copy_or_reject xpad_config 22).1 (by decide) (by decide),
   (jsiocgbtnmap_copy_or_reject xpad_config 21).2 (Or.inl (by decide))⟩

/-- C9 counterexample: EVIOCGPROP with a 4-byte buffer does not return a
zero-filled buffer with the length as success value — it sets bit 5 of
byte 0 (the pointing-stick property) and returns 0. -/
theorem eviocgprop_not_zero_cex :
    eviocgprop 4 = ([32, 0, 0, 0], 0) ∧
    eviocgprop 4 ≠ (List.replicate 4 0, 4) := by decide

/-- C9 (amended): for every len > 0, EVIOCGKEY, EVIOCGLED and EVIOCGSW
fill the caller's len-byte buffer entirely with zero bytes and return len,
while EVIOCGPROP zeroes the buffer, sets bit 5 of byte 0
(INPUT_PROP_POINTING_STICK, value 32) and returns 0 rather than len. -/
theorem ev_state_query_buffers :
    ∀ len : Nat, 0 < len →
      ((∀ i, i < len → (eviocgkey len).1.getD i 7 = 0) ∧ (eviocgkey len).2 = len) ∧
      ((∀ i, i < len → (eviocgled len).1.getD i 7 = 0) ∧ (eviocgled len).2 = len) ∧
      ((∀ i, i < len → (eviocgsw len).1.getD i 7 = 0) ∧ (eviocgsw len).2 = len) ∧
      ((eviocgprop len).1.getD 0 7 = 32 ∧
       (∀ i, 0 < i → i < len → (eviocgprop len).1.getD i 7 = 0) ∧
       (eviocgprop len).2 = 0) := by
  intro len hlen
  have hrep : ∀ i, i < len → (List.replicate len (0 : Nat)).getD i 7 = 0 := by
    intro i hi
    rw [List.getD_eq_getElem?_getD, List.getElem?_replicate, if_pos hi]
    rfl
  have h00 : (List.replicate len (0 : Nat)).getD 0 0 = 0 := by
    rw [List.getD_eq_getElem?_getD, List.getElem?_replicate, if_pos hlen]
    rfl
  have hbuf : (eviocgprop len).1 = (List.replicate len (0 : Nat)).set 0 32 := by
    simp [eviocgprop, INPUT_PROP_POINTING_STICK, hlen, h00]
  refine ⟨⟨hrep, rfl⟩, ⟨hrep, rfl⟩, ⟨hrep, rfl⟩, ?_, ?_, rfl⟩
  · rw [hbuf, List.getD_eq_getElem?_getD, List.getElem?_set, if_pos rfl,
      if_pos (by rw [List.length_replicate]; exact hlen)]
    rfl
  · intro i h0 hi
    rw [hbuf, List.getD_eq_getElem?_getD, List.getElem?_set,
      if_neg (by omega), ← List.getD_eq_getElem?_getD]
    exact hrep i hi

/-- C9 witness: the amended theorem at buffer length 4, reading byte 2 of
the key-state buffer and bytes 0 and 2 of the properties buffer. -/
theorem ev_state_query_buffers_witness :
    (eviocgkey 4).1.getD 2 7 = 0 ∧ (eviocgkey 4).2 = 4 ∧
    (eviocgprop 4).1.getD 0 7 = 32 ∧ (eviocgprop 4).1.getD 2 7 = 0 ∧
    (eviocgprop 4).2 = 0 := by
  obtain ⟨⟨hk, hk2⟩, _, _, hp0, hpi, hp2⟩ := ev_state_query_buffers 4 (by decide)
  exact ⟨hk 2 (by decide), hk2, hp0, hpi 2 (by decide) (by decide), hp2⟩

/-- The EVIOCGBIT(EV_KEY) loop body never changes the buffer length. -/
theorem key_bit_step_length (len : Nat) (buf : List Nat) (c : Nat) :
    (key_bit_step len buf c).length = buf.length := by
  unfold key_bit_step set_key_bit
  split
  · exact List.length_set _ _ _
  · rfl

/-- Effect of one EVIOCGBIT(EV_KEY) loop iteration on bit b of byte k: the
bit is unchanged except that code c turns it on when c targets exactly
this bit (c = 8k+b) and passes the KEY_MAX guard. -/
theorem key_bit_step_testBit (len k b : Nat) (buf : List Nat) (c : Nat)
    (hlen : buf.length = len) (hk : k < len) (hb : b < 8) :
    Nat.testBit ((key_bit_step len buf c).getD k 7) b =
      (Nat.testBit (buf.getD k 7) b ||
        (decide (c = 8 * k + b) && decide (c < KEY_MAX))) := by
  unfold key_bit_step
  by_cases hc : c < KEY_MAX ∧ c / 8 < len
  · rw [if_pos hc]
    unfold set_key_bit
    by_cases hck : c / 8 = k
    · rw [List.getD_eq_getElem?_getD, List.getElem?_set, if_pos hck,
        if_pos (by rw [hlen, hck]; exact hk)]
      show Nat.testBit (buf.getD (c / 8) 0 ||| 1 <<< (c % 8)) b = _
      rw [Nat.testBit_or, Nat.shiftLeft_eq, one_mul, Nat.testBit_two_pow]
      have hgd : buf.getD (c / 8) 0 = buf.getD k 7 := by
        rw [hck, List.getD_eq_getElem buf 0 (by rw [hlen]; exact hk),
          List.getD_eq_getElem buf 7 (by rw [hlen]; exact hk)]
      rw [hgd, decide_eq_true hc.1, Bool.and_true]
      congr 1
      exact decide_eq_decide.mpr (by omega)
    · rw [List.getD_eq_getElem?_getD, List.getElem?_set, if_neg hck,
        ← List.getD_eq_getElem?_getD]
      have hfalse : decide (c = 8 * k + b) = false := by
        apply decide_eq_false
        intro hceq
        exact hck (by omega)
      rw [hfalse, Bool.false_and, Bool.or_false]
  · rw [if_neg hc]
    have hfalse : (decide (c = 8 * k + b) && decide (c < KEY_MAX)) = false := by
      by_cases hce : c = 8 * k + b
      · have hnlt : ¬ c < KEY_MAX := fun hlt => hc ⟨hlt, by omega⟩
        rw [decide_eq_false hnlt, Bool.and_false]
      · rw [decide_eq_false hce, Bool.false_and]
    rw [hfalse, Bool.or_false]

/-- Running the EVIOCGBIT(EV_KEY) loop over a code list: bit b of byte k
ends up set iff it was set in the starting buffer or some code in the list
targets it and passes the KEY_MAX guard. -/
theorem key_bit_foldl_testBit (codes : List Nat) (len k b : Nat)
    (buf : List Nat) (hlen : buf.length = len) (hk : k < len) (hb : b < 8) :
    Nat.testBit ((codes.foldl (key_bit_step len) buf).getD k 7) b =
      (Nat.testBit (buf.getD k 7) b ||
        codes.any (fun c => decide (c = 8 * k + b) && decide (c < KEY_MAX))) := by
  induction codes generalizing buf hlen with
  | nil => simp
  | cons c cs ih =>
    rw [List.foldl_cons,
      ih _ (by rw [key_bit_step_length, hlen]),
      key_bit_step_testBit len k b buf c hlen hk hb,
      List.any_cons, Bool.or_assoc]

/-- C8 (amended): in the EVIOCGBIT(EV_KEY) bitmap of length len, bit
(code mod 8) of byte (code div 8) is set for exactly the configured
btn_map codes that pass BOTH the validity guard code < KEY_MAX (767) and
the buffer bound code / 8 < len; every other bit — in particular every bit
whose code is un-mapped, and the bit of a mapped code at or above KEY_MAX —
is clear. -/
theorem eviocgbit_key_bits :
    ∀ (cfg : js_config_t) (len k b : Nat), k < len → b < 8 →
      (Nat.testBit ((eviocgbit_key cfg len).getD k 7) b = true ↔
        ((8 * k + b) ∈ cfg.btn_map.take cfg.num_btns ∧ 8 * k + b < KEY_MAX)) := by
  intro cfg len k b hk hb
  unfold eviocgbit_key
  rw [key_bit_foldl_testBit _ len k b _ (List.length_replicate _ _) hk hb]
  have h0 : Nat.testBit ((List.replicate len (0 : Nat)).getD k 7) b = false := by
    rw [List.getD_eq_getElem?_getD, List.getElem?_replicate, if_pos hk]
    exact Nat.zero_testBit b
  rw [h0, Bool.false_or, List.any_eq_true]
  constructor
  · rintro ⟨c, hcmem, hcp⟩
    rw [Bool.and_eq_true, decide_eq_true_eq, decide_eq_true_eq] at hcp
    exact ⟨hcp.1 ▸ hcmem, hcp.1 ▸ hcp.2⟩
  · rintro ⟨hmem, hlt⟩
    refine ⟨8 * k + b, hmem, ?_⟩
    rw [decide_eq_true rfl, decide_eq_true hlt]
    rfl

/-- A configuration whose single mapped button code 304 (BTN_SOUTH)
matches the spec's capability-bitmap example. -/
def south_config : js_config_t := ⟨[88], 0, 0, 0, 1, 0, [304], []⟩

/-- C8 witness: the amended theorem on the BTN_SOUTH configuration with a
39-byte buffer: bit 0 of byte 38 is set. -/
theorem eviocgbit_key_bits_witness :
    Nat.testBit ((eviocgbit_key south_config 39).getD 38 7) 0 = true :=
  (eviocgbit_key_bits south_config 39 38 0 (by decide) (by decide)).mpr (by decide)

/-- A configuration whose single mapped button code 800 lies beyond
KEY_MAX while its byte index 100 still fits a 128-byte bitmap buffer. -/
def oob_config : js_config_t := ⟨[88], 0, 0, 0, 1, 0, [800], []⟩

/-- C8 counterexample: mapped code 800 passes the bounds check against the
buffer length (800 / 8 = 100 < 128), yet the handler leaves bit 0 of byte
100 clear — the whole byte is 0 — because 800 fails the additional
code < KEY_MAX guard the claim omits. -/
theorem eviocgbit_key_keymax_cex :
    800 / 8 = 100 ∧ 100 < 128 ∧
    (eviocgbit_key oob_config 128).getD 100 7 = 0 ∧
    Nat.testBit ((eviocgbit_key oob_config 128).getD 100 7) 0 = false := by
  decide

/-- C5: for each of the eight monitored device paths, after a first open
whose connect/handshake succeeded and produced descriptor fd, a second
open on the same path before any close returns the identical descriptor
fd, leaves the slot table — sockfd, open_flags and configuration —
completely unchanged, and does not consult the connect oracle at all (no
second connection is attempted, whatever conn2 is). -/
theorem open_idempotent :
    ∀ (pathname : String) (flags flags2 : Nat) (fd : Nat) (cfg : js_config_t)
      (conn2 : Option (Nat × js_config_t)),
      pathname ∈ device_paths →
      (common_open_logic interposers pathname flags (some (fd, cfg))).2 =
        Int.ofNat fd ∧
      common_open_logic
          (common_open_logic interposers pathname flags (some (fd, cfg))).1
          pathname flags2 conn2 =
        ((common_open_logic interposers pathname flags (some (fd, cfg))).1,
         Int.ofNat fd) := by
  intro pathname flags flags2 fd cfg conn2 hmem
  have hfd : (Int.ofNat fd) ≠ -1 := by
    have h3 : (Int.ofNat fd) = (fd : Int) := rfl
    rw [h3]
    omega
  simp only [device_paths, List.mem_cons, List.not_mem_nil, or_false] at hmem
  rcases hmem with h | h | h | h | h | h | h | h <;> subst h <;>
    refine ⟨?_, ?_⟩ <;> simp [interposers, common_open_logic, hfd]

/-- C5 witness: the theorem on the third legacy slot, with a successful
first connect producing descriptor 7 and a would-fail second oracle that
the second open never consults. -/
theorem open_idempotent_witness :
    (common_open_logic interposers "/dev/input/js2" 0 (some (7, zero_config))).2 =
      Int.ofNat 7 ∧
    common_open_logic
        (common_open_logic interposers "/dev/input/js2" 0 (some (7, zero_config))).1
        "/dev/input/js2" 2048 none =
      ((common_open_logic interposers "/dev/input/js2" 0 (some (7, zero_config))).1,
       Int.ofNat 7) :=
  open_idempotent "/dev/input/js2" 0 2048 7 zero_config none (by decide)

end Interposer
